import Mathlib

/-!
Shallow embedding of the Saleor M-Pesa payment gateway
(`saleor/payment/gateways/mpesa/__init__.py`, `utils.py`, `plugin.py`).

Modelling conventions:
* Python strings are `String`; where byte-level reasoning is needed
  (Base64 of a UTF-8 encoded string) strings are modelled as their UTF-8
  byte sequences (`List Nat`), on which Python string concatenation is
  list append.
* `requests` I/O is modelled by an oracle value `UpstreamResult` per HTTP
  attempt: a 2xx reply with a parsed JSON object, a non-2xx reply with a
  parsed JSON object, a reply whose body is not parseable JSON, or a
  network failure.  JSON objects are association lists of string pairs
  (the gateway only reads string-valued fields).
* Recursive self-retries consume a list of upstream outcomes; an
  exhausted list yields `none` ("not modelled further"), so theorems
  quantify over supplies long enough for the behaviour at issue.
* Python exceptions escaping an operation are modelled as `Except.error`
  with a `PyErr` describing the exception (`AttributeError` from
  `None.get`, `KeyError` from `d[k]` on a missing key, `TypeError` from
  subscripting `None`).
* `Decimal` amounts are `ℚ`; Python `int()` truncates toward zero.
-/

namespace Mpesa

/-! ### Base64 (Python `base64.b64encode`) over byte sequences -/

/-- Character code of the standard Base64 alphabet at index `i < 64`. -/
def b64alpha (i : Nat) : Nat :=
  if i < 26 then 65 + i
  else if i < 52 then 97 + (i - 26)
  else if i < 62 then 48 + (i - 52)
  else if i = 62 then 43
  else 47

/-- Inverse of `b64alpha` on alphabet characters. -/
def b64value (c : Nat) : Nat :=
  if 65 ≤ c ∧ c ≤ 90 then c - 65
  else if 97 ≤ c ∧ c ≤ 122 then 26 + (c - 97)
  else if 48 ≤ c ∧ c ≤ 57 then 52 + (c - 48)
  else if c = 43 then 62
  else 63

/-- Base64-encode a byte sequence: 3-byte groups become 4 alphabet
characters, a trailing byte or byte pair is padded with `'='` (code 61),
exactly as `base64.b64encode`. -/
def b64encode : List Nat → List Nat
  | [] => []
  | [a] => [b64alpha (a / 4), b64alpha (a % 4 * 16), 61, 61]
  | [a, b] => [b64alpha (a / 4), b64alpha (a % 4 * 16 + b / 16), b64alpha (b % 16 * 4), 61]
  | a :: b :: c :: rest =>
      b64alpha (a / 4) :: b64alpha (a % 4 * 16 + b / 16) ::
        b64alpha (b % 16 * 4 + c / 64) :: b64alpha (c % 64) :: b64encode rest

/-- Base64 decoder used only to prove the encoder injective. -/
def b64decode : List Nat → List Nat
  | c1 :: c2 :: c3 :: c4 :: rest =>
      if c3 = 61 then [b64value c1 * 4 + b64value c2 / 16]
      else if c4 = 61 then
        [b64value c1 * 4 + b64value c2 / 16, b64value c2 % 16 * 16 + b64value c3 / 4]
      else
        (b64value c1 * 4 + b64value c2 / 16) ::
          (b64value c2 % 16 * 16 + b64value c3 / 4) ::
          (b64value c3 % 4 * 64 + b64value c4) :: b64decode rest
  | _ => []

theorem b64value_b64alpha : ∀ i < 64, b64value (b64alpha i) = i := by decide

theorem b64alpha_ne_61 : ∀ i < 64, b64alpha i ≠ 61 := by decide

/-- Decoding undoes encoding on genuine byte sequences. -/
theorem b64_roundtrip : ∀ l : List Nat, (∀ x ∈ l, x < 256) → b64decode (b64encode l) = l
  | [], _ => rfl
  | [a], h => by
      have ha : a < 256 := h a (by simp)
      simp only [b64encode, b64decode, if_true]
      rw [b64value_b64alpha (a / 4) (by omega), b64value_b64alpha (a % 4 * 16) (by omega)]
      simp only [List.cons.injEq, and_true]
      omega
  | [a, b], h => by
      have ha : a < 256 := h a (by simp)
      have hb : b < 256 := h b (by simp)
      simp only [b64encode, b64decode, if_true]
      rw [if_neg (b64alpha_ne_61 (b % 16 * 4) (by omega))]
      rw [b64value_b64alpha (a / 4) (by omega),
        b64value_b64alpha (a % 4 * 16 + b / 16) (by omega),
        b64value_b64alpha (b % 16 * 4) (by omega)]
      simp only [List.cons.injEq, and_true]
      omega
  | a :: b :: c :: rest, h => by
      have ha : a < 256 := h a (by simp)
      have hb : b < 256 := h b (by simp)
      have hc : c < 256 := h c (by simp)
      have ih : b64decode (b64encode rest) = rest :=
        b64_roundtrip rest (fun x hx =>
          h x (List.mem_cons_of_mem _ (List.mem_cons_of_mem _ (List.mem_cons_of_mem _ hx))))
      simp only [b64encode, b64decode]
      rw [if_neg (b64alpha_ne_61 (b % 16 * 4 + c / 64) (by omega)),
        if_neg (b64alpha_ne_61 (c % 64) (by omega))]
      rw [b64value_b64alpha (a / 4) (by omega),
        b64value_b64alpha (a % 4 * 16 + b / 16) (by omega),
        b64value_b64alpha (b % 16 * 4 + c / 64) (by omega),
        b64value_b64alpha (c % 64) (by omega), ih]
      simp only [List.cons.injEq, and_true]
      refine ⟨by omega, by omega, by omega⟩

/-- The Base64 encoder is injective on byte sequences. -/
theorem b64encode_injective (l l2 : List Nat)
    (h : ∀ x ∈ l, x < 256) (h2 : ∀ x ∈ l2, x < 256)
    (he : b64encode l = b64encode l2) : l = l2 := by
  rw [← b64_roundtrip l h, ← b64_roundtrip l2 h2, he]

/-! ### UTF-8 bytes of a string -/

/-- UTF-8 byte encoding of a Unicode code point. -/
def charUtf8 (c : Nat) : List Nat :=
  if c < 128 then [c]
  else if c < 2048 then [192 + c / 64, 128 + c % 64]
  else if c < 65536 then [224 + c / 4096, 128 + c / 64 % 64, 128 + c % 64]
  else [240 + c / 262144, 128 + c / 4096 % 64, 128 + c / 64 % 64, 128 + c % 64]

/-- UTF-8 byte sequence of a string (Python `s.encode("utf-8")`). -/
def strBytes (s : String) : List Nat :=
  (s.data.map (fun c => charUtf8 c.toNat)).flatten

/-! ### `utils.py` -/

/-- Source `generate_lipa_password(timestamp, config)`: Base64 of the UTF-8
bytes of the concatenation shortcode ++ passkey ++ timestamp, where the
shortcode and passkey come from the connection parameters.  Strings are
modelled as their UTF-8 byte sequences. -/
def generate_lipa_password (timestamp shortcode passkey : List Nat) : List Nat :=
  b64encode (shortcode ++ passkey ++ timestamp)

/-! ### Data model (`saleor/payment/interface.py` types, as used here) -/

inductive TransactionKind where
  | CAPTURE
  | REFUND
  | VOID
deriving DecidableEq

/-- The `connection_params` mapping built by
`MpesaGatewayPlugin._initialize_plugin_configuration`. -/
structure ConnectionParams where
  consumer_key : String
  consumer_secret : String
  base_url : String
  shortcode : String
  passkey : String
  callback_url : String
  initiator_security_credential : String
  initiator_name : String
deriving DecidableEq

structure GatewayConfig where
  gateway_name : String
  auto_capture : Bool
  connection_params : ConnectionParams
  template_path : String
  store_customer : Bool
deriving DecidableEq

structure AddressData where
  phone : String
deriving DecidableEq

structure PaymentData where
  amount : ℚ
  currency : String
  token : String
  billing : AddressData
  order_id : Option String
deriving DecidableEq

/-- A parsed JSON object with string-valued fields, as the gateway reads
them.  Python dict truthiness is emptiness of the list. -/
abbrev Body := List (String × String)

/-- Python `d.get(k)`. -/
def bodyGet (b : Body) (k : String) : Option String :=
  (b.find? (fun p => p.1 = k)).map Prod.snd

/-- Python `d.get(k, default)`. -/
def bodyGetD (b : Body) (k dflt : String) : String :=
  (bodyGet b k).getD dflt

/-- Python `d[k] = v`. -/
def bodySet (b : Body) (k v : String) : Body :=
  if (bodyGet b k).isSome then b.map (fun p => if p.1 = k then (k, v) else p)
  else b ++ [(k, v)]

structure GatewayResponse where
  is_success : Bool
  action_required : Bool
  kind : TransactionKind
  amount : ℚ
  currency : String
  transaction_id : String
  error : Option String
  raw_response : Option Body
deriving DecidableEq

/-- A Python exception escaping an operation. -/
inductive PyErr where
  | attributeError
  | typeError
  | keyError (k : String)
deriving DecidableEq

instance {ε α : Type} [DecidableEq ε] [DecidableEq α] : DecidableEq (Except ε α)
  | Except.ok x, Except.ok y =>
      if h : x = y then isTrue (h ▸ rfl) else isFalse fun he => h (Except.ok.inj he)
  | Except.error x, Except.error y =>
      if h : x = y then isTrue (h ▸ rfl) else isFalse fun he => h (Except.error.inj he)
  | Except.ok _, Except.error _ => isFalse fun he => Except.noConfusion he
  | Except.error _, Except.ok _ => isFalse fun he => Except.noConfusion he

/-- Outcome of one upstream HTTP attempt: 2xx with a parsed JSON object,
non-2xx with a parsed JSON object, a reply whose body is not parseable
JSON (`response.json()` raises), or a network failure (`requests.post`
raises).  In the last two cases `response_data` stays `None`. -/
inductive UpstreamResult where
  | success (body : Body)
  | httpError (body : Body)
  | noJson
  | networkFailure
deriving DecidableEq

/-- Python `int()` on a `Decimal`: truncation toward zero. -/
def pyInt (q : ℚ) : ℤ :=
  if q < 0 then ⌈q⌉ else ⌊q⌋

/-- Python truthiness of an optional string (`None` and `""` are falsy). -/
def pyTruthy : Option String → Bool
  | none => false
  | some s => s ≠ ""

/-! ### Request builders (`get_billing_data`, `get_refund_data`) -/

/-- The push-payment payload.  `Password` is the Base64 byte string
(`password.decode("utf-8")` in the source). -/
structure BillingData where
  BusinessShortCode : String
  Password : List Nat
  Timestamp : String
  TransactionType : String
  Amount : ℤ
  PartyA : String
  PartyB : String
  PhoneNumber : String
  CallBackURL : String
  AccountReference : String
  TransactionDesc : String
deriving DecidableEq

/-- Source `get_billing_data`.  The wall-clock timestamp
(`timezone.now().strftime`) and the global `CURRENT_SITE.name` are passed
as parameters `timestamp` and `siteName`. -/
def get_billing_data (pay : PaymentData) (cfg : GatewayConfig)
    (timestamp siteName : String) : BillingData :=
  { BusinessShortCode := cfg.connection_params.shortcode
  , Password := generate_lipa_password (strBytes timestamp)
      (strBytes cfg.connection_params.shortcode) (strBytes cfg.connection_params.passkey)
  , Timestamp := timestamp
  , TransactionType := "CustomerPayBillOnline"
  , Amount := pyInt pay.amount
  , PartyA := pay.billing.phone.drop 1
  , PartyB := cfg.connection_params.shortcode
  , PhoneNumber := pay.billing.phone.drop 1
  , CallBackURL := cfg.connection_params.callback_url
  , AccountReference := siteName
  , TransactionDesc := "M-PESA payment" }

/-- The reversal payload (source `get_refund_data`, field typo kept). -/
structure RefundData where
  Initiator : String
  SecurityCredential : String
  CommandID : String
  TransactionID : String
  Amount : ℤ
  ReceiverParty : String
  RecieverIdentifierType : String
  ResultURL : String
  QueueTimeOutURL : String
  Remarks : String
  Occasion : String
deriving DecidableEq

/-- Source `get_refund_data`. -/
def get_refund_data (pay : PaymentData) (cfg : GatewayConfig) : RefundData :=
  { Initiator := cfg.connection_params.initiator_name
  , SecurityCredential := cfg.connection_params.initiator_security_credential
  , CommandID := "TransactionReversal"
  , TransactionID := pay.token
  , Amount := pyInt pay.amount
  , ReceiverParty := cfg.connection_params.shortcode
  , RecieverIdentifierType := "1"
  , ResultURL := cfg.connection_params.callback_url
  , QueueTimeOutURL := cfg.connection_params.callback_url
  , Remarks := "Reversal"
  , Occasion := "Payment refund" }

/-! ### Transaction operations -/

/-- Source `void`: unconditional success, no upstream call
(`raw_response` is not passed, hence `None`). -/
def void (pay : PaymentData) (_cfg : GatewayConfig) : GatewayResponse :=
  { is_success := true
  , action_required := false
  , kind := TransactionKind.VOID
  , amount := pay.amount
  , currency := pay.currency
  , transaction_id := pay.token
  , error := none
  , raw_response := none }

/-- The single `return GatewayResponse(...)` at the end of `capture` and
of `confirm` (both use `TransactionKind.CAPTURE`; the local variable
`action_required` is initialised `False` and never reassigned). -/
def mkCaptureResponse (pay : PaymentData) (success : Bool) (error : Option String)
    (response_data : Body) : GatewayResponse :=
  { is_success := success
  , action_required := false
  , kind := TransactionKind.CAPTURE
  , amount := pay.amount
  , currency := pay.currency
  , transaction_id := bodyGetD response_data "CheckoutRequestID" pay.token
  , error := error
  , raw_response := some response_data }

/-- One invocation of the source `capture` given its upstream outcome
`o`; `retry` is the value of the recursive `capture(...)` call made (and
discarded, like the refreshed token) on the "Invalid Access Token"
branch — an exception raised by that inner call propagates. -/
def captureAttempt (pay : PaymentData) (cfg : GatewayConfig) (timestamp siteName : String)
    (o : UpstreamResult) (retry : Option (Except PyErr GatewayResponse)) :
    Option (Except PyErr GatewayResponse) :=
  let billing_data := get_billing_data pay cfg timestamp siteName
  match o with
  | UpstreamResult.success body =>
      let response_data := bodySet body "Timestamp" billing_data.Timestamp
      some (Except.ok (mkCaptureResponse pay true none response_data))
  | UpstreamResult.httpError body =>
      if body = [] then
        some (Except.ok (mkCaptureResponse pay false
          (some "An internal error occured. Kindly try again later.") body))
      else if bodyGet body "errorMessage" = some "Invalid Access Token" then
        match retry with
        | none => none
        | some (Except.error e) => some (Except.error e)
        | some (Except.ok _) => some (Except.ok (mkCaptureResponse pay false none body))
      else
        some (Except.ok (mkCaptureResponse pay false
          (some "Payment not processed. Kindly check the phone number provided and try again.")
          body))
  | UpstreamResult.noJson => some (Except.error PyErr.attributeError)
  | UpstreamResult.networkFailure => some (Except.error PyErr.attributeError)

/-- Source `capture`.  One upstream outcome is consumed per invocation;
the "Invalid Access Token" branch re-invokes `capture` on the remaining
outcomes exactly as the source recursion does.  A `none` result means
the outcome supply was exhausted before the recursion settled. -/
def capture (pay : PaymentData) (cfg : GatewayConfig) (timestamp siteName : String) :
    List UpstreamResult → Option (Except PyErr GatewayResponse)
  | [] => none
  | o :: rest => captureAttempt pay cfg timestamp siteName o
      (capture pay cfg timestamp siteName rest)

/-- The status-query payload built inside `confirm`. -/
structure QueryData where
  BusinessShortCode : String
  Password : List Nat
  Timestamp : String
  CheckoutRequestID : String
deriving DecidableEq

/-- One invocation of the source `confirm` given its upstream outcome
`o`.  It reads `Timestamp` and `CheckoutRequestID` out of the capture
response's raw payload by Python subscripting (raising `TypeError` on a
`None` payload and `KeyError` on a missing key); `retry` is the value of
the recursive `confirm(...)` call made (and discarded) on the
"being processed" branch after the 3-unit sleep — an exception raised by
that inner call propagates. -/
def confirmAttempt (pay : PaymentData) (cfg : GatewayConfig)
    (capture_response : GatewayResponse) (o : UpstreamResult)
    (retry : Option (Except PyErr GatewayResponse)) :
    Option (Except PyErr GatewayResponse) :=
  match capture_response.raw_response with
  | none => some (Except.error PyErr.typeError)
  | some raw =>
    match bodyGet raw "Timestamp" with
    | none => some (Except.error (PyErr.keyError "Timestamp"))
    | some timestamp =>
      match bodyGet raw "CheckoutRequestID" with
      | none => some (Except.error (PyErr.keyError "CheckoutRequestID"))
      | some crid =>
        let _transaction_data : QueryData :=
          { BusinessShortCode := cfg.connection_params.shortcode
          , Password := generate_lipa_password (strBytes timestamp)
              (strBytes cfg.connection_params.shortcode)
              (strBytes cfg.connection_params.passkey)
          , Timestamp := timestamp
          , CheckoutRequestID := crid }
        match o with
        | UpstreamResult.success body =>
            match bodyGet body "ResultDesc" with
            | none => some (Except.error (PyErr.keyError "ResultDesc"))
            | some d =>
              if d = "The service request is processed successfully." then
                some (Except.ok (mkCaptureResponse pay true none body))
              else
                some (Except.ok (mkCaptureResponse pay false
                  (some "The transaction was declined. Kindly check that you\x27ve provided the correct phone number and try again.")
                  body))
        | UpstreamResult.httpError body =>
            if body = [] then
              some (Except.ok (mkCaptureResponse pay false
                (some "An internal error occured. Kindly try again later.") body))
            else if bodyGet body "errorMessage" = some "The transaction is being processed" then
              match retry with
              | none => none
              | some (Except.error e) => some (Except.error e)
              | some (Except.ok _) => some (Except.ok (mkCaptureResponse pay false none body))
            else
              some (Except.ok (mkCaptureResponse pay false
                (some "The payment couldn\x27t be confirmed. Kindly try again after a while.")
                body))
        | UpstreamResult.noJson => some (Except.error PyErr.attributeError)
        | UpstreamResult.networkFailure => some (Except.error PyErr.attributeError)

/-- Source `confirm`: one upstream outcome per invocation, the
"being processed" branch re-invoking `confirm` on the remaining
outcomes exactly as the source recursion does. -/
def confirm (pay : PaymentData) (cfg : GatewayConfig) (capture_response : GatewayResponse) :
    List UpstreamResult → Option (Except PyErr GatewayResponse)
  | [] => none
  | o :: rest => confirmAttempt pay cfg capture_response o
      (confirm pay cfg capture_response rest)

/-- The final `return GatewayResponse(...)` of `refund`. -/
def mkRefundResponse (pay : PaymentData) (success : Bool) (error : Option String)
    (response_data : Body) : GatewayResponse :=
  { is_success := success
  , action_required := false
  , kind := TransactionKind.REFUND
  , amount := pay.amount
  , currency := pay.currency
  , transaction_id := bodyGetD response_data "ConversationID" pay.token
  , error := error
  , raw_response := some response_data }

/-- Source `refund`: a single upstream call, no self-retry.  In the
`except` branch the source itself calls `response_data.get(...)`, so on
a missing body the `AttributeError` is raised from inside the handler. -/
def refund (pay : PaymentData) (cfg : GatewayConfig) (o : UpstreamResult) :
    Except PyErr GatewayResponse :=
  let _refund_data := get_refund_data pay cfg
  match o with
  | UpstreamResult.success body =>
      if (bodyGet body "ResponseDescription").isSome ∧ bodyGet body "ResponseCode" = some "0" then
        Except.ok (mkRefundResponse pay true none body)
      else
        Except.ok (mkRefundResponse pay false (bodyGet body "ResponseDescription") body)
  | UpstreamResult.httpError body =>
      Except.ok (mkRefundResponse pay false
        (some (bodyGetD body "errorMessage" "An internal error occurred. Kindly try again later."))
        body)
  | UpstreamResult.noJson => Except.error PyErr.attributeError
  | UpstreamResult.networkFailure => Except.error PyErr.attributeError

/-- Source `process_payment`: call `capture`; if `capture_request.error`
is truthy return it unchanged; otherwise sleep 10 and return the result
of `confirm`.  The capture and confirm attempts draw from separate
outcome supplies. -/
def process_payment (pay : PaymentData) (cfg : GatewayConfig) (timestamp siteName : String)
    (captureOutcomes confirmOutcomes : List UpstreamResult) :
    Option (Except PyErr GatewayResponse) :=
  match capture pay cfg timestamp siteName captureOutcomes with
  | none => none
  | some (Except.error e) => some (Except.error e)
  | some (Except.ok capture_request) =>
      if pyTruthy capture_request.error then some (Except.ok capture_request)
      else confirm pay cfg capture_request confirmOutcomes

/-! ### Plugin adapter (`plugin.py`) -/

structure PaymentConfigField where
  field : String
  value : String
deriving DecidableEq

/-- Source `MpesaGatewayPlugin.get_payment_config` body. -/
def get_payment_config (cfg : GatewayConfig) : List PaymentConfigField :=
  [ { field := "shortcode", value := cfg.connection_params.shortcode }
  , { field := "callback_url", value := cfg.connection_params.callback_url } ]

/-- The `require_active_plugin` wrapper applied to `get_payment_config`:
an inactive plugin returns the hook's `previous_value` unchanged. -/
def get_payment_config_hook (active : Bool) (cfg : GatewayConfig)
    (previous : Option (List PaymentConfigField)) : Option (List PaymentConfigField) :=
  if active then some (get_payment_config cfg) else previous

/-! ### Helpers for stating claims -/

/-- Projects the normally returned response out of an operation result. -/
def okExcept : Option (Except PyErr GatewayResponse) → Option GatewayResponse
  | some (Except.ok r) => some r
  | _ => none

/-- Projects the normally returned response of `refund`. -/
def okResult : Except PyErr GatewayResponse → Option GatewayResponse
  | Except.ok r => some r
  | Except.error _ => none

/-! ### Concrete fixtures -/

def cp0 : ConnectionParams :=
  { consumer_key := "ck-secret-0"
  , consumer_secret := "cs-secret-0"
  , base_url := "https://sandbox.example/"
  , shortcode := "174379"
  , passkey := "pk-secret-0"
  , callback_url := "https://shop.example/callback"
  , initiator_security_credential := "isc-secret-0"
  , initiator_name := "apitest425" }

def cfg0 : GatewayConfig :=
  { gateway_name := "Mpesa"
  , auto_capture := false
  , connection_params := cp0
  , template_path := ""
  , store_customer := false }

def pay0 : PaymentData :=
  { amount := 100
  , currency := "KES"
  , token := "tok-0"
  , billing := { phone := "0712345678" }
  , order_id := none }

def ts0 : String := "20200101120000"

def site0 : String := "ExampleSite"

def errTokenBody : Body := [("errorMessage", "Invalid Access Token")]

def okBody0 : Body := [("CheckoutRequestID", "chk-1")]

def capOs0 : List UpstreamResult :=
  [UpstreamResult.httpError errTokenBody, UpstreamResult.success okBody0]

def confOs0 : List UpstreamResult := [UpstreamResult.success []]

/-- The response `capture` returns on the invalid-token path of `capOs0`. -/
def capRes0 : GatewayResponse :=
  { is_success := false
  , action_required := false
  , kind := TransactionKind.CAPTURE
  , amount := 100
  , currency := "KES"
  , transaction_id := "tok-0"
  , error := none
  , raw_response := some errTokenBody }

/-- The response `capture` returns on a clean 2xx with body `okBody0`. -/
def capSucc0 : GatewayResponse :=
  { is_success := true
  , action_required := false
  , kind := TransactionKind.CAPTURE
  , amount := 100
  , currency := "KES"
  , transaction_id := "chk-1"
  , error := none
  , raw_response := some [("CheckoutRequestID", "chk-1"), ("Timestamp", "20200101120000")] }

def errOtherBody : Body := [("errorMessage", "Bad Request - Invalid PhoneNumber")]

def capErrOs0 : List UpstreamResult := [UpstreamResult.httpError errOtherBody]

/-- The response `capture` returns on a non-2xx reply with another
error message. -/
def capErrRes0 : GatewayResponse :=
  { is_success := false
  , action_required := false
  , kind := TransactionKind.CAPTURE
  , amount := 100
  , currency := "KES"
  , transaction_id := "tok-0"
  , error := some "Payment not processed. Kindly check the phone number provided and try again."
  , raw_response := some errOtherBody }

def declinedBody : Body :=
  [("ResultDesc", "Request cancelled by user"), ("CheckoutRequestID", "chk-1")]

/-- The response `confirm` returns on a 2xx status query whose result
description is not the success string. -/
def declinedRes0 : GatewayResponse :=
  { is_success := false
  , action_required := false
  , kind := TransactionKind.CAPTURE
  , amount := 100
  , currency := "KES"
  , transaction_id := "chk-1"
  , error := some "The transaction was declined. Kindly check that you\x27ve provided the correct phone number and try again."
  , raw_response := some declinedBody }

def processedBody : Body :=
  [("ResultDesc", "The service request is processed successfully."), ("CheckoutRequestID", "chk-1")]

def refundOkBody : Body :=
  [("ResponseCode", "0"), ("ResponseDescription", "Accepted"), ("ConversationID", "conv-1")]

def pay8 : PaymentData :=
  { amount := 50
  , currency := "KES"
  , token := "tok-8"
  , billing := { phone := "0712345678" }
  , order_id := some "order-7" }

def pay99 : PaymentData :=
  { amount := 10099 / 100
  , currency := "KES"
  , token := "tok-99"
  , billing := { phone := "0712345678" }
  , order_id := none }

/-! ### Claim theorems -/

/-- C1: the claim says every upstream outcome is converted into a
normalized `GatewayResponse` with the error field set on failure, and no
exception propagates out of the operation boundary.  The code contradicts
this: when `response_data` is still `None` (network failure or a reply
with no parseable JSON body), the final `return GatewayResponse(...)` of
`capture` — and for `refund` even the `except` handler itself — calls
`response_data.get(...)` on `None`, raising `AttributeError` into the
host platform. -/
theorem capture_networkFailure_raises :
    capture pay0 cfg0 ts0 site0 [UpstreamResult.networkFailure]
      = some (Except.error PyErr.attributeError)
    ∧ refund pay0 cfg0 UpstreamResult.networkFailure = Except.error PyErr.attributeError :=
  ⟨rfl, rfl⟩

/-- C2 counterexample: after the invalid-token retry path, `capture`
returns a response with `is_success = false` but `error = None`; on that
input `process_payment` does not short-circuit — it invokes `confirm`,
which blows up with `KeyError` on the missing `Timestamp` key.  So "whenever
capture's result is a failure (is_success = false), process_payment
returns capture's response unchanged without invoking confirm" is false. -/
theorem process_payment_proceeds_on_unsuccessful_capture :
    capture pay0 cfg0 ts0 site0 capOs0 = some (Except.ok capRes0)
    ∧ capRes0.is_success = false
    ∧ process_payment pay0 cfg0 ts0 site0 capOs0 confOs0
      = some (Except.error (PyErr.keyError "Timestamp")) := by
  refine ⟨by decide, by decide, by decide⟩

/-- C2 amended: `process_payment` invokes `capture` once and
short-circuits, returning capture's response unchanged without invoking
`confirm`, exactly when the capture response's `error` field is truthy;
when `error` is falsy (even with `is_success = false`) it proceeds to
`confirm` and returns its result. -/
theorem process_payment_short_circuits_on_error
    (pay : PaymentData) (cfg : GatewayConfig) (timestamp siteName : String)
    (captureOutcomes confirmOutcomes : List UpstreamResult) (capRes : GatewayResponse)
    (h : capture pay cfg timestamp siteName captureOutcomes = some (Except.ok capRes)) :
    (pyTruthy capRes.error = true →
      process_payment pay cfg timestamp siteName captureOutcomes confirmOutcomes
        = some (Except.ok capRes))
    ∧ (pyTruthy capRes.error = false →
      process_payment pay cfg timestamp siteName captureOutcomes confirmOutcomes
        = confirm pay cfg capRes confirmOutcomes) := by
  unfold process_payment
  rw [h]
  constructor <;> intro h2 <;> simp [h2]

/-- Witness for C2's amended theorem at a concrete failed capture whose
error field is set. -/
theorem process_payment_short_circuits_on_error_witness :
    capture pay0 cfg0 ts0 site0 capErrOs0 = some (Except.ok capErrRes0)
    ∧ process_payment pay0 cfg0 ts0 site0 capErrOs0 confOs0 = some (Except.ok capErrRes0) :=
  ⟨by decide,
   (process_payment_short_circuits_on_error pay0 cfg0 ts0 site0 capErrOs0 confOs0 capErrRes0
      (by decide)).1 (by decide)⟩

/-- C3: the claim says the retried invocation's result is what the
operation returns.  The code re-invokes `capture` but discards the
returned value (`capture(payment_information, config)` with no `return`),
so even though the retried attempt succeeds (same outcome alone yields
`capSucc0` with `is_success = true`), the outer call returns
`is_success = false` with `error = None`. -/
theorem capture_retry_result_discarded :
    capture pay0 cfg0 ts0 site0 [UpstreamResult.success okBody0] = some (Except.ok capSucc0)
    ∧ capSucc0.is_success = true
    ∧ capture pay0 cfg0 ts0 site0 capOs0 = some (Except.ok capRes0)
    ∧ capRes0.is_success = false
    ∧ capRes0.error = none
    ∧ capRes0 ≠ capSucc0 := by
  refine ⟨by decide, by decide, by decide, by decide, by decide, by decide⟩

/-- C4 counterexample: on a 2xx status query whose result description
differs from the success string, `confirm` returns a declined response
whose action-required flag is `false`, not `true` as claimed. -/
theorem confirm_declined_action_required_false :
    confirm pay0 cfg0 capSucc0 [UpstreamResult.success declinedBody]
      = some (Except.ok declinedRes0)
    ∧ declinedRes0.is_success = false
    ∧ declinedRes0.action_required = false := by
  refine ⟨by decide, by decide, by decide⟩

/-- Every response a single `confirm` invocation returns normally has
the action-required flag clear, whatever the upstream outcome. -/
theorem confirmAttempt_action_required_false
    (pay : PaymentData) (cfg : GatewayConfig) (capture_response : GatewayResponse)
    (o : UpstreamResult) (retry : Option (Except PyErr GatewayResponse)) (r : GatewayResponse)
    (h : confirmAttempt pay cfg capture_response o retry = some (Except.ok r)) :
    r.action_required = false := by
  unfold confirmAttempt at h
  repeat' split at h
  all_goals
    first
    | (simp only [Option.some.injEq, Except.ok.injEq] at h; subst h; rfl)
    | simp at h

/-- C4 amended: the local `action_required` of `confirm` is initialised
`False` and never reassigned, so every response `confirm` returns — on
any path — has its action-required flag set to `false` (the
no-parseable-body path raises instead of returning). -/
theorem confirm_action_required_always_false :
    ∀ (outcomes : List UpstreamResult) (pay : PaymentData) (cfg : GatewayConfig)
      (capture_response : GatewayResponse) (r : GatewayResponse),
      confirm pay cfg capture_response outcomes = some (Except.ok r) →
      r.action_required = false
  | [], _, _, _, _, h => by simp [confirm] at h
  | o :: rest, pay, cfg, capture_response, r, h =>
      confirmAttempt_action_required_false pay cfg capture_response o
        (confirm pay cfg capture_response rest) r (by simpa [confirm] using h)

/-- Witness for C4's amended theorem at the concrete declined reply. -/
theorem confirm_action_required_always_false_witness :
    declinedRes0.action_required = false :=
  confirm_action_required_always_false [UpstreamResult.success declinedBody] pay0 cfg0
    capSucc0 declinedRes0 (by decide)

/-- C5: on a 2xx status-query reply carrying a result description `d`
(and a capture payload carrying the timestamp and checkout-session id),
`confirm` succeeds exactly when `d` is
"The service request is processed successfully."; any other `d` yields
`is_success = false` with the declined error message. -/
theorem confirm_success_iff_processed_desc
    (pay : PaymentData) (cfg : GatewayConfig) (capture_response : GatewayResponse)
    (raw body : Body) (timestamp crid d : String) (rest : List UpstreamResult)
    (hraw : capture_response.raw_response = some raw)
    (hts : bodyGet raw "Timestamp" = some timestamp)
    (hcr : bodyGet raw "CheckoutRequestID" = some crid)
    (hd : bodyGet body "ResultDesc" = some d) :
    ((okExcept (confirm pay cfg capture_response (UpstreamResult.success body :: rest))).map
        (fun r => r.is_success) = some true
      ↔ d = "The service request is processed successfully.")
    ∧ (d ≠ "The service request is processed successfully." →
      (okExcept (confirm pay cfg capture_response (UpstreamResult.success body :: rest))).map
        (fun r => r.error)
      = some (some "The transaction was declined. Kindly check that you\x27ve provided the correct phone number and try again.")) := by
  by_cases hdd : d = "The service request is processed successfully." <;>
    simp [confirm, confirmAttempt, hraw, hts, hcr, hd, hdd, okExcept, mkCaptureResponse]

/-- Witness for C5 at a concrete processed reply. -/
theorem confirm_success_iff_processed_desc_witness :
    (okExcept (confirm pay0 cfg0 capSucc0 [UpstreamResult.success processedBody])).map
      (fun r => r.is_success) = some true :=
  (confirm_success_iff_processed_desc pay0 cfg0 capSucc0
      [("CheckoutRequestID", "chk-1"), ("Timestamp", "20200101120000")] processedBody
      "20200101120000" "chk-1" "The service request is processed successfully." []
      (by decide) (by decide) (by decide) (by decide)).1.mpr rfl

/-- C6: on a 2xx reversal reply, `refund` succeeds exactly when the
response code is "0" and the response description is non-null; otherwise
it fails, surfacing the (possibly null) upstream description as the
error. -/
theorem refund_success_iff_code_zero
    (pay : PaymentData) (cfg : GatewayConfig) (body : Body) :
    ((okResult (refund pay cfg (UpstreamResult.success body))).map (fun r => r.is_success)
      = some (decide ((bodyGet body "ResponseDescription").isSome
          ∧ bodyGet body "ResponseCode" = some "0")))
    ∧ (¬ ((bodyGet body "ResponseDescription").isSome
          ∧ bodyGet body "ResponseCode" = some "0") →
      (okResult (refund pay cfg (UpstreamResult.success body))).map (fun r => r.error)
        = some (bodyGet body "ResponseDescription")) := by
  by_cases hc : (bodyGet body "ResponseDescription").isSome
      ∧ bodyGet body "ResponseCode" = some "0" <;>
    simp [refund, okResult, mkRefundResponse, hc]

/-- Witness for C6 at a concrete accepted reversal reply. -/
theorem refund_success_iff_code_zero_witness :
    ((okResult (refund pay0 cfg0 (UpstreamResult.success refundOkBody))).map
      (fun r => r.is_success)
      = some (decide ((bodyGet refundOkBody "ResponseDescription").isSome
          ∧ bodyGet refundOkBody "ResponseCode" = some "0")))
    ∧ decide ((bodyGet refundOkBody "ResponseDescription").isSome
          ∧ bodyGet refundOkBody "ResponseCode" = some "0") = true :=
  ⟨(refund_success_iff_code_zero pay0 cfg0 refundOkBody).1, by decide⟩

/-- C7 counterexample: the password is Base64 of the bare concatenation
shortcode ++ passkey ++ timestamp, so shifting the boundary between the
short-code and the pass-key produces identical passwords from different
triples (bytes of "12" ++ "3" versus "1" ++ "23"). -/
theorem lipa_password_collision :
    generate_lipa_password [55] [49, 50] [51] = generate_lipa_password [55] [49] [50, 51]
    ∧ ([49, 50] : List Nat) ≠ [49] := by
  refine ⟨by decide, by decide⟩

/-- C7 amended: password generation is deterministic, and two triples
produce different passwords whenever the byte concatenations
shortcode ++ passkey ++ timestamp differ (injectivity only up to the
concatenation — boundary-shifted triples as in the counterexample
collide). -/
theorem lipa_password_deterministic_and_injective
    (t s p t2 s2 p2 : List Nat)
    (hb : ∀ x ∈ s ++ p ++ t, x < 256) (hb2 : ∀ x ∈ s2 ++ p2 ++ t2, x < 256)
    (hne : s ++ p ++ t ≠ s2 ++ p2 ++ t2) :
    generate_lipa_password t s p = generate_lipa_password t s p
    ∧ generate_lipa_password t s p ≠ generate_lipa_password t2 s2 p2 := by
  refine ⟨rfl, fun he => hne ?_⟩
  exact b64encode_injective _ _ hb hb2 he

/-- Witness for C7's amended theorem at concrete byte triples. -/
theorem lipa_password_deterministic_and_injective_witness :
    generate_lipa_password [48] [49] [50] = generate_lipa_password [48] [49] [50]
    ∧ generate_lipa_password [48] [49] [50] ≠ generate_lipa_password [48] [49] [51] :=
  lipa_password_deterministic_and_injective [48] [49] [50] [48] [49] [51]
    (by decide) (by decide) (by decide)

/-- C8 counterexample: the push payload's `AccountReference` is
`CURRENT_SITE.name` (the local variable `token` is assigned the site
name), so for a payment with an order identifier present it equals the
site name, not the order id and not the payment token. -/
theorem account_reference_ignores_order_and_token :
    pay8.order_id = some "order-7"
    ∧ (get_billing_data pay8 cfg0 ts0 site0).AccountReference = "ExampleSite"
    ∧ "ExampleSite" ≠ "order-7"
    ∧ "ExampleSite" ≠ pay8.token := by
  refine ⟨by decide, by decide, by decide, by decide⟩

/-- C8 amended: the account-reference field of the push payload equals
the current site's name, for every payment — independent of the payment's
order identifier and token. -/
theorem account_reference_is_site_name (pay pay2 : PaymentData) (cfg : GatewayConfig)
    (timestamp siteName : String) :
    (get_billing_data pay cfg timestamp siteName).AccountReference = siteName
    ∧ (get_billing_data pay cfg timestamp siteName).AccountReference
      = (get_billing_data pay2 cfg timestamp siteName).AccountReference :=
  ⟨rfl, rfl⟩

/-- C9: both outbound payloads carry `int(amount)`; for non-negative
amounts that is the floor (truncation), and `100.99` truncates to
`100`. -/
theorem payload_amount_truncated (pay : PaymentData) (cfg : GatewayConfig)
    (timestamp siteName : String) (h : 0 ≤ pay.amount) :
    (get_billing_data pay cfg timestamp siteName).Amount = ⌊pay.amount⌋
    ∧ (get_refund_data pay cfg).Amount = ⌊pay.amount⌋
    ∧ pyInt (10099 / 100 : ℚ) = 100 := by
  have hp : pyInt pay.amount = ⌊pay.amount⌋ := by
    unfold pyInt
    rw [if_neg (not_lt.mpr h)]
  have h99 : pyInt (10099 / 100 : ℚ) = 100 := by
    rw [pyInt, if_neg (by norm_num)]
    rw [Int.floor_eq_iff]
    norm_num
  exact ⟨hp, hp, h99⟩

/-- Witness for C9 at the fractional amount 100.99. -/
theorem payload_amount_truncated_witness :
    (get_billing_data pay99 cfg0 ts0 site0).Amount = ⌊pay99.amount⌋
    ∧ (get_refund_data pay99 cfg0).Amount = ⌊pay99.amount⌋
    ∧ pyInt (10099 / 100 : ℚ) = 100 :=
  payload_amount_truncated pay99 cfg0 ts0 site0 (by norm_num [pay99])

/-- C10: for an active plugin the payment-config hook returns exactly the
two public fields (short-code and callback URL); any string distinct from
those two values — in particular each secret connection parameter when it
differs from them — does not occur among the returned values. -/
theorem payment_config_exposes_only_public_fields
    (cfg : GatewayConfig) (previous : Option (List PaymentConfigField))
    (active : Bool) (h : active = true) :
    get_payment_config_hook active cfg previous
      = some [ { field := "shortcode", value := cfg.connection_params.shortcode }
             , { field := "callback_url", value := cfg.connection_params.callback_url } ]
    ∧ (get_payment_config cfg).length = 2
    ∧ (get_payment_config cfg).map PaymentConfigField.field = ["shortcode", "callback_url"]
    ∧ (∀ s : String, s ≠ cfg.connection_params.shortcode →
        s ≠ cfg.connection_params.callback_url →
        s ∉ (get_payment_config cfg).map PaymentConfigField.value) := by
  subst h
  refine ⟨rfl, rfl, rfl, ?_⟩
  intro s h1 h2
  simp [get_payment_config, h1, h2]

/-- Witness for C10: the active hook on the concrete configuration, and
the consumer key absent from the returned values. -/
theorem payment_config_exposes_only_public_fields_witness :
    get_payment_config_hook true cfg0 none
      = some [ { field := "shortcode", value := cfg0.connection_params.shortcode }
             , { field := "callback_url", value := cfg0.connection_params.callback_url } ]
    ∧ "ck-secret-0" ∉ (get_payment_config cfg0).map PaymentConfigField.value :=
  ⟨(payment_config_exposes_only_public_fields cfg0 none true rfl).1,
   (payment_config_exposes_only_public_fields cfg0 none true rfl).2.2.2 "ck-secret-0"
     (by decide) (by decide)⟩

end Mpesa
